import Mathlib

/-!
Shallow embedding of the Prompt Refinery application (src/main.py) and
verification of its specified properties.

Strings are modelled by Lean `String`; Python truthiness of a string is
emptiness; Python `str.strip()` is modelled by `pyStrip`, which removes
leading and trailing characters satisfying `Char.isWhitespace`.
-/

set_option maxRecDepth 40000

/-- Model of Python str.strip() on the underlying character list: drop leading
whitespace, then drop trailing whitespace (via reverse). -/
def stripChars (l : List Char) : List Char :=
  ((l.dropWhile Char.isWhitespace).reverse.dropWhile Char.isWhitespace).reverse

/-- Model of Python str.strip(): remove surrounding whitespace. -/
def pyStrip (s : String) : String := ⟨stripChars s.data⟩

/-- Model of the Python expression `s or t` where `s` is a string: the empty
string is falsy, so the result is `t` when `s` is empty and `s` otherwise. -/
def pyOr (s t : String) : String := if s = "" then t else s

/-- A string `s` is stripped when stripping it changes nothing. -/
def isStripped (s : String) : Prop := pyStrip s = s

instance (s : String) : Decidable (isStripped s) :=
  inferInstanceAs (Decidable (pyStrip s = s))

/-- The needle occurs verbatim as a substring of the haystack. -/
def containsStr (hay needle : String) : Prop := needle.data <:+: hay.data

instance (h n : String) : Decidable (containsStr h n) :=
  inferInstanceAs (Decidable (n.data <:+: h.data))

/-- The string `s` starts with `p`. -/
def beginsWith (s p : String) : Prop := p.data <+: s.data

instance (s p : String) : Decidable (beginsWith s p) :=
  inferInstanceAs (Decidable (p.data <+: s.data))

/-- The string `s` ends with `t`. -/
def endsWith (s t : String) : Prop := t.data <:+ s.data

instance (s t : String) : Decidable (endsWith s t) :=
  inferInstanceAs (Decidable (t.data <:+ s.data))

/-- The dataclass PromptInputs of src/main.py (lines 33-40). -/
structure PromptInputs where
  mode : String
  original_prompt : String
  goal : String
  audience : String
  tone : String
  constraints : String
deriving DecidableEq

/-- The static TONE_MAP dictionary of src/main.py (lines 43-48), as an
association list. -/
def TONE_MAP : List (String × String) :=
  [("neutral", "Use a clear, neutral tone."),
   ("friendly", "Use a warm, friendly tone that feels approachable."),
   ("professional", "Use a crisp, professional tone with confident wording."),
   ("playful", "Use a playful, light tone that still feels helpful.")]

/-- build_common_guidance of src/main.py (lines 131-133):
`TONE_MAP.get(inputs.tone, TONE_MAP["neutral"])`. The Python indexing
`TONE_MAP["neutral"]` cannot fail because the key is present; it is modelled
by a lookup with an (unreachable) empty-string default. -/
def build_common_guidance (inputs : PromptInputs) : String :=
  (TONE_MAP.lookup inputs.tone).getD ((TONE_MAP.lookup "neutral").getD "")

/-- build_refined_prompt of src/main.py (lines 101-113). -/
def build_refined_prompt (inputs : PromptInputs) : String :=
  "Rewrite the prompt below so it is clear, specific, and easy to execute.\n" ++
  "Include a concise role, the task, required inputs, constraints, and output format.\n" ++
  "Audience: " ++ inputs.audience ++ ".\n" ++
  build_common_guidance inputs ++ "\n" ++
  "Constraints: " ++ pyOr inputs.constraints "No additional constraints." ++ "\n\n" ++
  "Original prompt:\n" ++
  pyOr inputs.original_prompt "[Paste your base prompt here]"

/-- build_generated_prompt of src/main.py (lines 116-128). -/
def build_generated_prompt (inputs : PromptInputs) : String :=
  "Create a new prompt that guides an assistant to achieve the goal below.\n" ++
  "Include a concise role, the task, required inputs, constraints, and output format.\n" ++
  "Use placeholders for missing details the user should fill in.\n" ++
  "Goal: " ++ pyOr inputs.goal "[Describe the outcome you want to achieve]" ++ "\n" ++
  "Audience: " ++ inputs.audience ++ ".\n" ++
  build_common_guidance inputs ++ "\n" ++
  "Constraints: " ++ pyOr inputs.constraints "No additional constraints."

/-- Construction of the PromptInputs value inside the refine handler of
src/main.py (lines 74-81): original_prompt, goal, audience and constraints
are stripped, audience falls back to "general" when blank, and mode and tone
are stored exactly as submitted. -/
def refine_inputs (mode original_prompt goal audience tone constraints : String) :
    PromptInputs :=
  { mode := mode
    original_prompt := pyStrip original_prompt
    goal := pyStrip goal
    audience := pyOr (pyStrip audience) "general"
    tone := tone
    constraints := pyStrip constraints }

/-- Prompt selection inside the refine handler of src/main.py (lines 83-86):
build_refined_prompt exactly when mode equals "refine", otherwise
build_generated_prompt. -/
def select_prompt (inputs : PromptInputs) : String :=
  if inputs.mode = "refine" then build_refined_prompt inputs
  else build_generated_prompt inputs

/-- The OPENAI_API_KEY configuration of src/main.py (line 19): the environment
value (absent modelled as `none`) defaulted to the empty string, stripped. -/
def OPENAI_API_KEY (env : Option String) : String := pyStrip (env.getD "")

/-- The openai_client of src/main.py (lines 21-23): present exactly when the
stripped key is non-empty (Python truthiness). -/
def openai_client (env : Option String) : Option Unit :=
  if OPENAI_API_KEY env = "" then none else some ()

/-- The message carried by one choice of a chat-completion response; content
may be absent (Python None). -/
structure ApiMessage where
  content : Option String
deriving DecidableEq

/-- One choice of a chat-completion response. -/
structure ApiChoice where
  message : ApiMessage
deriving DecidableEq

/-- Outcome of the outbound chat-completion call: either it raises an
exception (carrying its string rendering) or it returns a response with a
list of choices. -/
inductive CallOutcome where
  | raises (detail : String)
  | succeeds (choices : List ApiChoice)
deriving DecidableEq

/-- run_openai of src/main.py (lines 136-169). `env` is the OPENAI_API_KEY
environment value; `call` is the outcome of the outbound call (only consulted
when the client is configured). Mirrors the source: not-configured notice,
caught-exception notice, otherwise `choices[0].message.content if choices
else ""` followed by `content.strip() if content else ""`. -/
def run_openai (env : Option String) (call : CallOutcome) (prompt : String) : String :=
  match openai_client env with
  | none =>
      "OpenAI is not configured. Set OPENAI_API_KEY to enable refinement.\n\n" ++
      "Constructed prompt:\n" ++ prompt
  | some _ =>
    match call with
    | .raises exc =>
        "OpenAI request failed. Please try again.\n\n" ++
        "Details: " ++ exc ++ "\n\n" ++
        "Constructed prompt:\n" ++ prompt
    | .succeeds choices =>
        let content : Option String :=
          match choices with
          | [] => some ""
          | c :: _ => c.message.content
        match content with
        | none => ""
        | some s => if s = "" then "" else pyStrip s

theorem containsStr_refl (s : String) : containsStr s s :=
  ⟨[], [], by simp⟩

theorem containsStr_append_right (h t n : String) (H : containsStr h n) :
    containsStr (h ++ t) n := by
  obtain ⟨u, v, huv⟩ := H
  exact ⟨u, v ++ t.data, by rw [String.data_append, ← huv]; simp⟩

theorem containsStr_append_left (s h n : String) (H : containsStr h n) :
    containsStr (s ++ h) n := by
  obtain ⟨u, v, huv⟩ := H
  exact ⟨s.data ++ u, v, by rw [String.data_append, ← huv]; simp⟩

theorem dropWhile_dropWhile {α : Type} (p : α → Bool) (l : List α) :
    (l.dropWhile p).dropWhile p = l.dropWhile p := by
  induction l with
  | nil => rfl
  | cons a l ih =>
    by_cases h : p a
    · simp [List.dropWhile_cons, h, ih]
    · simp [List.dropWhile_cons, h]

theorem dropWhile_length_le {α : Type} (p : α → Bool) (l : List α) :
    (l.dropWhile p).length ≤ l.length := by
  induction l with
  | nil => simp
  | cons a l ih =>
    by_cases h : p a
    · rw [List.dropWhile_cons]
      simp only [h, if_true]
      exact Nat.le_trans ih (Nat.le_succ _)
    · rw [List.dropWhile_cons]
      simp [h]

theorem dropWhile_eq_self_of_isPrefix {α : Type} (p : α → Bool) {m n : List α}
    (hmn : m <+: n) (hn : n.dropWhile p = n) : m.dropWhile p = m := by
  cases m with
  | nil => rfl
  | cons a m₂ =>
    obtain ⟨t, ht⟩ := hmn
    have hpa : p a = false := by
      by_contra hc
      have hpa2 : p a = true := by
        cases hpb : p a with
        | false => exact absurd hpb hc
        | true => rfl
      rw [← ht] at hn
      rw [List.cons_append, List.dropWhile_cons, hpa2] at hn
      simp only [if_true] at hn
      have hle := dropWhile_length_le p (m₂ ++ t)
      rw [hn] at hle
      simp only [List.length_cons, List.length_append] at hle
      omega
    rw [List.dropWhile_cons, hpa]
    simp

theorem stripChars_idem (l : List Char) : stripChars (stripChars l) = stripChars l := by
  unfold stripChars
  set d := l.dropWhile Char.isWhitespace with hd
  set m := d.reverse.dropWhile Char.isWhitespace with hm
  have hmr : m.reverse <+: d := by
    have hs : m <:+ d.reverse := List.dropWhile_suffix _
    obtain ⟨t, ht⟩ := hs
    exact ⟨t.reverse, by rw [← List.reverse_append, ht, List.reverse_reverse]⟩
  have hdw : d.dropWhile Char.isWhitespace = d := dropWhile_dropWhile _ l
  have h1 : m.reverse.dropWhile Char.isWhitespace = m.reverse :=
    dropWhile_eq_self_of_isPrefix _ hmr hdw
  have h2 : m.dropWhile Char.isWhitespace = m := dropWhile_dropWhile _ d.reverse
  rw [h1, List.reverse_reverse, h2]

theorem pyStrip_idem (s : String) : pyStrip (pyStrip s) = pyStrip s :=
  congrArg String.mk (stripChars_idem s.data)

theorem isStripped_pyStrip (s : String) : isStripped (pyStrip s) :=
  pyStrip_idem s

theorem beginsWith_append (a b p : String) (H : beginsWith a p) :
    beginsWith (a ++ b) p := by
  obtain ⟨t, ht⟩ := H
  exact ⟨t ++ b.data, by rw [String.data_append, ← ht]; simp⟩

theorem endsWith_append (a b : String) : endsWith (a ++ b) b :=
  ⟨a.data, (String.data_append a b).symm⟩

/-- C1: build_refined_prompt and build_generated_prompt are total Lean
functions (so they never fail), and for every PromptInputs value their output
contains the audience string and the tone-guidance sentence verbatim as
substrings. -/
theorem builders_contain_audience_and_guidance (i : PromptInputs) :
    containsStr (build_refined_prompt i) i.audience ∧
    containsStr (build_refined_prompt i) (build_common_guidance i) ∧
    containsStr (build_generated_prompt i) i.audience ∧
    containsStr (build_generated_prompt i) (build_common_guidance i) := by
  refine ⟨?_, ?_, ?_, ?_⟩
  · unfold build_refined_prompt
    iterate 8 apply containsStr_append_right
    exact containsStr_append_left _ _ _ (containsStr_refl _)
  · unfold build_refined_prompt
    iterate 6 apply containsStr_append_right
    exact containsStr_append_left _ _ _ (containsStr_refl _)
  · unfold build_generated_prompt
    iterate 5 apply containsStr_append_right
    exact containsStr_append_left _ _ _ (containsStr_refl _)
  · unfold build_generated_prompt
    iterate 3 apply containsStr_append_right
    exact containsStr_append_left _ _ _ (containsStr_refl _)

/-- C2: when no API credential is configured, run_openai returns a text that
starts with "OpenAI is not configured." and ends with the full constructed
prompt, whatever the outcome of the (never issued) outbound call would be. -/
theorem run_openai_not_configured (env : Option String) (call : CallOutcome)
    (prompt : String) (h : openai_client env = none) :
    beginsWith (run_openai env call prompt) "OpenAI is not configured." ∧
    endsWith (run_openai env call prompt) prompt := by
  unfold run_openai
  rw [h]
  constructor
  · iterate 2 apply beginsWith_append
    decide
  · exact endsWith_append _ _

/-- C3: when the client is configured and the outbound call raises, run_openai
catches the exception and returns (rather than propagating an error) a text
that starts with "OpenAI request failed.", contains the failure detail, and
ends with the constructed prompt. -/
theorem run_openai_raises (env : Option String) (detail prompt : String)
    (h : openai_client env = some ()) :
    beginsWith (run_openai env (.raises detail) prompt) "OpenAI request failed." ∧
    containsStr (run_openai env (.raises detail) prompt) detail ∧
    endsWith (run_openai env (.raises detail) prompt) prompt := by
  unfold run_openai
  rw [h]
  refine ⟨?_, ?_, ?_⟩
  · iterate 5 apply beginsWith_append
    decide
  · iterate 3 apply containsStr_append_right
    exact containsStr_append_left _ _ _ (containsStr_refl _)
  · exact endsWith_append _ _

/-- C4: when the client is configured and the outbound call succeeds,
run_openai returns the empty string when the response has no choices or a
null content, and otherwise returns the content with surrounding whitespace
trimmed (which is the empty string when the content is empty). -/
theorem run_openai_success (env : Option String) (prompt : String)
    (h : openai_client env = some ()) :
    run_openai env (.succeeds []) prompt = "" ∧
    (∀ c rest, c.message.content = none →
      run_openai env (.succeeds (c :: rest)) prompt = "") ∧
    (∀ c rest s, c.message.content = some s →
      run_openai env (.succeeds (c :: rest)) prompt = pyStrip s) := by
  refine ⟨?_, ?_, ?_⟩
  · unfold run_openai
    rw [h]
    rfl
  · intro c rest hc
    unfold run_openai
    rw [h]
    simp [hc]
  · intro c rest s hc
    unfold run_openai
    rw [h]
    simp only [hc]
    by_cases hs : s = ""
    · subst hs
      simp
      decide
    · simp [hs]

theorem pyOr_empty (t : String) : pyOr "" t = t := if_pos rfl

/-- C5 counterexample: the request handler stores the submitted mode field
unchanged, so at the concrete submission below the constructed PromptInputs
has mode " refine ", which still carries surrounding whitespace; hence not
every text field of the object is trimmed on construction. -/
theorem refine_inputs_mode_not_trimmed :
    ¬ isStripped (refine_inputs " refine " "" "" "" "neutral" "").mode := by
  decide

/-- C5 (amended): on construction of the PromptInputs value from the
submitted form fields, original_prompt, goal, audience and constraints are
trimmed of surrounding whitespace, while mode and tone are stored exactly as
submitted. -/
theorem refine_inputs_trimming (mode op goal aud tone cons : String) :
    isStripped (refine_inputs mode op goal aud tone cons).original_prompt ∧
    isStripped (refine_inputs mode op goal aud tone cons).goal ∧
    isStripped (refine_inputs mode op goal aud tone cons).audience ∧
    isStripped (refine_inputs mode op goal aud tone cons).constraints ∧
    (refine_inputs mode op goal aud tone cons).mode = mode ∧
    (refine_inputs mode op goal aud tone cons).tone = tone := by
  refine ⟨isStripped_pyStrip _, isStripped_pyStrip _, ?_, isStripped_pyStrip _, rfl, rfl⟩
  show isStripped (pyOr (pyStrip aud) "general")
  unfold pyOr
  by_cases h : pyStrip aud = ""
  · rw [if_pos h]
    decide
  · rw [if_neg h]
    exact isStripped_pyStrip _

/-- C6: for every tone value outside the recognized set, build_common_guidance
falls back to the neutral guidance sentence. -/
theorem build_common_guidance_fallback (i : PromptInputs)
    (h : i.tone ∉ ["neutral", "friendly", "professional", "playful"]) :
    build_common_guidance i = "Use a clear, neutral tone." := by
  simp only [List.mem_cons, List.not_mem_nil, or_false, not_or] at h
  obtain ⟨h1, h2, h3, h4⟩ := h
  have e1 : (i.tone == "neutral") = false := beq_eq_false_iff_ne.mpr h1
  have e2 : (i.tone == "friendly") = false := beq_eq_false_iff_ne.mpr h2
  have e3 : (i.tone == "professional") = false := beq_eq_false_iff_ne.mpr h3
  have e4 : (i.tone == "playful") = false := beq_eq_false_iff_ne.mpr h4
  unfold build_common_guidance TONE_MAP
  simp [List.lookup, e1, e2, e3, e4]

/-- Witness for C6 at the unrecognized tone "sarcastic". -/
theorem build_common_guidance_fallback_witness :
    build_common_guidance ⟨"refine", "", "", "general", "sarcastic", ""⟩ =
      "Use a clear, neutral tone." :=
  build_common_guidance_fallback ⟨"refine", "", "", "general", "sarcastic", ""⟩ (by decide)

/-- C7 counterexample: the PromptInputs value below has an original_prompt
(a single space) that is blank in the sense of being empty after trimming,
yet build_refined_prompt keeps the space (a non-empty string is truthy) and
its output does not contain the placeholder. -/
theorem blank_after_trim_original_keeps_space :
    pyStrip (PromptInputs.mk "refine" " " "" "general" "neutral" "").original_prompt = "" ∧
    ¬ containsStr (build_refined_prompt (PromptInputs.mk "refine" " " "" "general" "neutral" ""))
        "[Paste your base prompt here]" := by
  constructor
  · decide
  · decide

/-- C7 (amended): for every form submission to the refine handler whose
original_prompt is blank (empty after trimming), the handler trims the field
on construction, so build_refined_prompt on the constructed PromptInputs
contains the literal placeholder. -/
theorem refined_placeholder_for_blank_original
    (mode op goal aud tone cons : String) (h : pyStrip op = "") :
    containsStr (build_refined_prompt (refine_inputs mode op goal aud tone cons))
      "[Paste your base prompt here]" := by
  unfold build_refined_prompt refine_inputs
  simp only [h, pyOr_empty]
  exact containsStr_append_left _ _ _ (containsStr_refl _)

/-- Witness for C7 at a whitespace-only submitted original_prompt. -/
theorem refined_placeholder_for_blank_original_witness :
    containsStr (build_refined_prompt (refine_inputs "refine" "   " "" "" "neutral" ""))
      "[Paste your base prompt here]" :=
  refined_placeholder_for_blank_original "refine" "   " "" "" "neutral" "" (by decide)

/-- C8 counterexample: the PromptInputs value below has a goal (a single
space) that is blank in the sense of being empty after trimming, yet
build_generated_prompt keeps the space (a non-empty string is truthy) and its
output does not contain the placeholder. -/
theorem blank_after_trim_goal_keeps_space :
    pyStrip (PromptInputs.mk "generate" "" " " "general" "neutral" "").goal = "" ∧
    ¬ containsStr (build_generated_prompt (PromptInputs.mk "generate" "" " " "general" "neutral" ""))
        "[Describe the outcome you want to achieve]" := by
  constructor
  · decide
  · decide

/-- C8 (amended): for every form submission to the refine handler whose goal
is blank (empty after trimming), the handler trims the field on construction,
so build_generated_prompt on the constructed PromptInputs contains the
literal placeholder. -/
theorem generated_placeholder_for_blank_goal
    (mode op goal aud tone cons : String) (h : pyStrip goal = "") :
    containsStr (build_generated_prompt (refine_inputs mode op goal aud tone cons))
      "[Describe the outcome you want to achieve]" := by
  unfold build_generated_prompt refine_inputs
  simp only [h, pyOr_empty]
  iterate 8 apply containsStr_append_right
  exact containsStr_append_left _ _ _ (containsStr_refl _)

/-- Witness for C8 at a whitespace-only submitted goal. -/
theorem generated_placeholder_for_blank_goal_witness :
    containsStr (build_generated_prompt (refine_inputs "generate" "" "   " "" "neutral" ""))
      "[Describe the outcome you want to achieve]" :=
  generated_placeholder_for_blank_goal "generate" "" "   " "" "neutral" "" (by decide)

/-- C9: for every PromptInputs whose constraints field is blank, both builders
embed the fixed "No additional constraints." phrase in place of the
constraints text. -/
theorem no_additional_constraints_when_blank (i : PromptInputs)
    (h : i.constraints = "") :
    containsStr (build_refined_prompt i) "No additional constraints." ∧
    containsStr (build_generated_prompt i) "No additional constraints." := by
  constructor
  · unfold build_refined_prompt
    rw [h, pyOr_empty]
    iterate 3 apply containsStr_append_right
    exact containsStr_append_left _ _ _ (containsStr_refl _)
  · unfold build_generated_prompt
    rw [h, pyOr_empty]
    exact containsStr_append_left _ _ _ (containsStr_refl _)

/-- Witness for C9 at an empty constraints field. -/
theorem no_additional_constraints_when_blank_witness :
    containsStr (build_refined_prompt ⟨"refine", "p", "g", "aud", "neutral", ""⟩)
      "No additional constraints." ∧
    containsStr (build_generated_prompt ⟨"refine", "p", "g", "aud", "neutral", ""⟩)
      "No additional constraints." :=
  no_additional_constraints_when_blank ⟨"refine", "p", "g", "aud", "neutral", ""⟩ rfl

/-- C10: the handler builds the prompt with build_generated_prompt for every
submitted mode that is not exactly "refine" (including case or whitespace
variants, which are not normalized), and with build_refined_prompt exactly
when the submitted mode is "refine". -/
theorem select_prompt_mode_routing (mode op goal aud tone cons : String) :
    (mode ≠ "refine" →
      select_prompt (refine_inputs mode op goal aud tone cons) =
        build_generated_prompt (refine_inputs mode op goal aud tone cons)) ∧
    (mode = "refine" →
      select_prompt (refine_inputs mode op goal aud tone cons) =
        build_refined_prompt (refine_inputs mode op goal aud tone cons)) := by
  constructor
  · intro h
    simp [select_prompt, refine_inputs, h]
  · intro h
    simp [select_prompt, refine_inputs, h]

/-- Witness for C10: a whitespace variant of "refine" routes to the generated
prompt, and the exact string "refine" routes to the refined prompt. -/
theorem select_prompt_mode_routing_witness :
    select_prompt (refine_inputs " refine " "p" "g" "a" "neutral" "c") =
      build_generated_prompt (refine_inputs " refine " "p" "g" "a" "neutral" "c") ∧
    select_prompt (refine_inputs "refine" "p" "g" "a" "neutral" "c") =
      build_refined_prompt (refine_inputs "refine" "p" "g" "a" "neutral" "c") :=
  ⟨(select_prompt_mode_routing " refine " "p" "g" "a" "neutral" "c").1 (by decide),
   (select_prompt_mode_routing "refine" "p" "g" "a" "neutral" "c").2 rfl⟩

/-- Witness for C2 at an absent environment credential. -/
theorem run_openai_not_configured_witness :
    beginsWith (run_openai none (.succeeds []) "PROMPT") "OpenAI is not configured." ∧
    endsWith (run_openai none (.succeeds []) "PROMPT") "PROMPT" :=
  run_openai_not_configured none (.succeeds []) "PROMPT" (by decide)

/-- Witness for C3 at a configured credential and a raised exception. -/
theorem run_openai_raises_witness :
    beginsWith (run_openai (some "key") (.raises "boom") "PROMPT") "OpenAI request failed." ∧
    containsStr (run_openai (some "key") (.raises "boom") "PROMPT") "boom" ∧
    endsWith (run_openai (some "key") (.raises "boom") "PROMPT") "PROMPT" :=
  run_openai_raises (some "key") "boom" "PROMPT" (by decide)

/-- Witness for C4 at a configured credential: no choices, null content, and
whitespace-padded content. -/
theorem run_openai_success_witness :
    run_openai (some "key") (.succeeds []) "PROMPT" = "" ∧
    run_openai (some "key") (.succeeds [⟨⟨none⟩⟩]) "PROMPT" = "" ∧
    run_openai (some "key") (.succeeds [⟨⟨some " hi "⟩⟩]) "PROMPT" = pyStrip " hi " :=
  ⟨(run_openai_success (some "key") "PROMPT" (by decide)).1,
   (run_openai_success (some "key") "PROMPT" (by decide)).2.1 ⟨⟨none⟩⟩ [] rfl,
   (run_openai_success (some "key") "PROMPT" (by decide)).2.2 ⟨⟨some " hi "⟩⟩ [] " hi " rfl⟩
